import Mathlib

/-!
Shallow embedding of the terraform-cost-guard cost estimation engine
(package cost: the pricing catalog and the plan estimator) together with
proofs about the estimator. Go float64 values are modelled as exact
rationals; Go maps with zero-value-on-miss are modelled as association
lists read through a getD-0 accessor.
-/

set_option maxRecDepth 4000
set_option linter.unusedVariables false
set_option linter.unnecessarySeqFocus false

/-- Heterogeneous attribute values appearing in a terraform plan JSON
attribute map (Go: map[string]interface\x7b\x7d values). -/
inductive AttrValue where
  | str (s : String)
  | f64 (x : ℚ)
  | int (n : Int)
  | int64 (n : Int)
  | other
deriving DecidableEq

/-- An attribute map (Go: map[string]interface\x7b\x7d); nil maps are
modelled as Option.none at use sites. -/
abbrev AttrMap := List (String × AttrValue)

/-- Go getStringAttr: the value at key when present and a string,
otherwise the declared default. -/
def getStringAttr (attrs : AttrMap) (key defaultVal : String) : String :=
  match attrs.lookup key with
  | some (.str s) => s
  | _ => defaultVal

/-- Go getFloat64Attr: the value at key when present and numeric
(float64, int or int64), otherwise the declared default. -/
def getFloat64Attr (attrs : AttrMap) (key : String) (defaultVal : ℚ) : ℚ :=
  match attrs.lookup key with
  | some (.f64 x) => x
  | some (.int n) => (n : ℚ)
  | some (.int64 n) => (n : ℚ)
  | _ => defaultVal

/-- A Go map[string]float64 read: a missing key yields the zero value 0. -/
def mapGet (m : List (String × ℚ)) (k : String) : ℚ :=
  (m.lookup k).getD 0

/-- PricingData: hourly / per-GB-month rates for the supported resource
families (package cost, pricing table). -/
structure PricingData where
  EC2Instances : List (String × ℚ)
  RDSInstances : List (String × ℚ)
  EBSStorage : List (String × ℚ)
  LoadBalancers : List (String × ℚ)
  NATGateway : ℚ
  Elasticache : List (String × ℚ)
  EKSCluster : ℚ
  GCPInstances : List (String × ℚ)
  AzureVMs : List (String × ℚ)

/-- NewDefaultPricing: the default pricing table, entry for entry from the
source. -/
def NewDefaultPricing : PricingData where
  EC2Instances := [
    ("t3.nano", 0.0052), ("t3.micro", 0.0104), ("t3.small", 0.0208),
    ("t3.medium", 0.0416), ("t3.large", 0.0832), ("t3.xlarge", 0.1664),
    ("t3.2xlarge", 0.3328),
    ("t3a.nano", 0.0047), ("t3a.micro", 0.0094), ("t3a.small", 0.0188),
    ("t3a.medium", 0.0376), ("t3a.large", 0.0752), ("t3a.xlarge", 0.1504),
    ("t3a.2xlarge", 0.3008),
    ("m5.large", 0.096), ("m5.xlarge", 0.192), ("m5.2xlarge", 0.384),
    ("m5.4xlarge", 0.768), ("m5.8xlarge", 1.536), ("m5.12xlarge", 2.304),
    ("m5.16xlarge", 3.072), ("m5.24xlarge", 4.608),
    ("m6i.large", 0.096), ("m6i.xlarge", 0.192), ("m6i.2xlarge", 0.384),
    ("m6i.4xlarge", 0.768),
    ("c5.large", 0.085), ("c5.xlarge", 0.17), ("c5.2xlarge", 0.34),
    ("c5.4xlarge", 0.68), ("c5.9xlarge", 1.53), ("c5.18xlarge", 3.06),
    ("c6i.large", 0.085), ("c6i.xlarge", 0.17), ("c6i.2xlarge", 0.34),
    ("r5.large", 0.126), ("r5.xlarge", 0.252), ("r5.2xlarge", 0.504),
    ("r5.4xlarge", 1.008), ("r5.8xlarge", 2.016), ("r5.12xlarge", 3.024),
    ("p3.2xlarge", 3.06), ("p3.8xlarge", 12.24), ("p3.16xlarge", 24.48),
    ("g4dn.xlarge", 0.526), ("g4dn.2xlarge", 0.752), ("g4dn.4xlarge", 1.204)]
  RDSInstances := [
    ("db.t3.micro", 0.017), ("db.t3.small", 0.034), ("db.t3.medium", 0.068),
    ("db.t3.large", 0.136), ("db.t3.xlarge", 0.272), ("db.t3.2xlarge", 0.544),
    ("db.m5.large", 0.171), ("db.m5.xlarge", 0.342), ("db.m5.2xlarge", 0.684),
    ("db.m5.4xlarge", 1.368),
    ("db.r5.large", 0.24), ("db.r5.xlarge", 0.48), ("db.r5.2xlarge", 0.96),
    ("db.r5.4xlarge", 1.92)]
  EBSStorage := [
    ("gp2", 0.10), ("gp3", 0.08), ("io1", 0.125), ("io2", 0.125),
    ("st1", 0.045), ("sc1", 0.015), ("standard", 0.05)]
  LoadBalancers := [("alb", 0.0225), ("nlb", 0.0225), ("classic", 0.025)]
  NATGateway := 0.045
  Elasticache := [
    ("cache.t3.micro", 0.017), ("cache.t3.small", 0.034),
    ("cache.t3.medium", 0.068), ("cache.m5.large", 0.156),
    ("cache.m5.xlarge", 0.312), ("cache.m5.2xlarge", 0.624),
    ("cache.r5.large", 0.226), ("cache.r5.xlarge", 0.452)]
  EKSCluster := 0.10
  GCPInstances := [
    ("e2-micro", 0.0084), ("e2-small", 0.0168), ("e2-medium", 0.0336),
    ("e2-standard-2", 0.0672), ("e2-standard-4", 0.1344),
    ("e2-standard-8", 0.2688),
    ("n1-standard-1", 0.0475), ("n1-standard-2", 0.095),
    ("n1-standard-4", 0.19), ("n1-standard-8", 0.38),
    ("n2-standard-2", 0.0971), ("n2-standard-4", 0.1942),
    ("n2-standard-8", 0.3884)]
  AzureVMs := [
    ("Standard_B1s", 0.0104), ("Standard_B1ms", 0.0207),
    ("Standard_B2s", 0.0416), ("Standard_B2ms", 0.0832),
    ("Standard_D2s_v3", 0.096), ("Standard_D4s_v3", 0.192),
    ("Standard_D8s_v3", 0.384),
    ("Standard_E2s_v3", 0.126), ("Standard_E4s_v3", 0.252),
    ("Standard_E8s_v3", 0.504),
    ("Standard_F2s_v2", 0.085), ("Standard_F4s_v2", 0.169),
    ("Standard_F8s_v2", 0.338)]

/-- Rounding used to model the Go format verb for a float printed with
zero decimals (round to nearest, ties to even). -/
def roundHalfEven (q : ℚ) : Int :=
  if q - ⌊q⌋ < 1/2 then ⌊q⌋
  else if q - ⌊q⌋ > 1/2 then ⌊q⌋ + 1
  else if ⌊q⌋ % 2 = 0 then ⌊q⌋ else ⌊q⌋ + 1

/-- Rendering of a float with zero decimal places, as in the detail
strings produced with %.0f. -/
def fmtDotZero (q : ℚ) : String := toString (roundHalfEven q)

/-- The EC2 hourly rate lookup with its zero-miss fallback to t3.micro
(body of estimateEC2Instance). -/
def ec2Rate (e : PricingData) (instanceType : String) : ℚ :=
  let hourlyRate := mapGet e.EC2Instances instanceType
  if hourlyRate = 0 then mapGet e.EC2Instances "t3.micro" else hourlyRate

/-- The RDS hourly rate lookup with its zero-miss fallback to db.t3.micro
(body of estimateRDSInstance). -/
def rdsRate (e : PricingData) (instanceClass : String) : ℚ :=
  let hourlyRate := mapGet e.RDSInstances instanceClass
  if hourlyRate = 0 then mapGet e.RDSInstances "db.t3.micro" else hourlyRate

/-- The EBS per-GB-month rate lookup with its zero-miss fallback to gp2
(body of estimateEBSVolume). -/
def ebsRate (e : PricingData) (volumeType : String) : ℚ :=
  let rate := mapGet e.EBSStorage volumeType
  if rate = 0 then mapGet e.EBSStorage "gp2" else rate

/-- The Elasticache hourly rate lookup with its zero-miss fallback to
cache.t3.micro (body of estimateElasticache). -/
def cacheRate (e : PricingData) (nodeType : String) : ℚ :=
  let hourlyRate := mapGet e.Elasticache nodeType
  if hourlyRate = 0 then mapGet e.Elasticache "cache.t3.micro" else hourlyRate

/-- The GCP hourly rate lookup with its zero-miss fallback to e2-micro
(body of estimateGCPInstance). -/
def gcpRate (e : PricingData) (machineType : String) : ℚ :=
  let hourlyRate := mapGet e.GCPInstances machineType
  if hourlyRate = 0 then mapGet e.GCPInstances "e2-micro" else hourlyRate

/-- The Azure hourly rate lookup with its zero-miss fallback to
Standard_B1s (body of estimateAzureVM). -/
def azureRate (e : PricingData) (size : String) : ℚ :=
  let hourlyRate := mapGet e.AzureVMs size
  if hourlyRate = 0 then mapGet e.AzureVMs "Standard_B1s" else hourlyRate

/-- estimateEC2Instance: instance_type attribute (default t3.micro),
hourly rate times 730. -/
def estimateEC2Instance (e : PricingData) (attrs : AttrMap) :
    ℚ × String × Bool :=
  let instanceType := getStringAttr attrs "instance_type" "t3.micro"
  (ec2Rate e instanceType * 730, "EC2 " ++ instanceType, true)

/-- estimateRDSInstance: instance_class hourly rate times 730 plus
allocated_storage (default 20) times the gp2 storage rate. -/
def estimateRDSInstance (e : PricingData) (attrs : AttrMap) :
    ℚ × String × Bool :=
  let instanceClass := getStringAttr attrs "instance_class" "db.t3.micro"
  let storageGB := getFloat64Attr attrs "allocated_storage" 20
  let storageCost := storageGB * mapGet e.EBSStorage "gp2"
  (rdsRate e instanceClass * 730 + storageCost,
   "RDS " ++ instanceClass ++ " + " ++ fmtDotZero storageGB ++ "GB storage",
   true)

/-- estimateEBSVolume: size (default 8) times the per-GB-month rate for
the declared volume type (default gp2). -/
def estimateEBSVolume (e : PricingData) (attrs : AttrMap) :
    ℚ × String × Bool :=
  let volumeType := getStringAttr attrs "type" "gp2"
  let sizeGB := getFloat64Attr attrs "size" 8
  (sizeGB * ebsRate e volumeType,
   "EBS " ++ volumeType ++ " " ++ fmtDotZero sizeGB ++ "GB", true)

/-- estimateALB: flat alb hourly rate times 730. -/
def estimateALB (e : PricingData) (attrs : AttrMap) : ℚ × String × Bool :=
  (mapGet e.LoadBalancers "alb" * 730, "Application Load Balancer", true)

/-- estimateELB: flat classic hourly rate times 730. -/
def estimateELB (e : PricingData) (attrs : AttrMap) : ℚ × String × Bool :=
  (mapGet e.LoadBalancers "classic" * 730, "Classic Load Balancer", true)

/-- estimateNATGateway: flat NAT gateway hourly rate times 730. -/
def estimateNATGateway (e : PricingData) (attrs : AttrMap) :
    ℚ × String × Bool :=
  (e.NATGateway * 730, "NAT Gateway", true)

/-- estimateElasticache: node_type hourly rate times 730 times
num_cache_nodes (default 1). -/
def estimateElasticache (e : PricingData) (attrs : AttrMap) :
    ℚ × String × Bool :=
  let nodeType := getStringAttr attrs "node_type" "cache.t3.micro"
  let numNodes := getFloat64Attr attrs "num_cache_nodes" 1
  (cacheRate e nodeType * 730 * numNodes,
   "Elasticache " ++ nodeType ++ " x" ++ fmtDotZero numNodes, true)

/-- estimateLambda: rough monthly figure from memory_size (default 128)
at an assumed 1M requests of 100ms each. -/
def estimateLambda (e : PricingData) (attrs : AttrMap) : ℚ × String × Bool :=
  let memoryMB := getFloat64Attr attrs "memory_size" 128
  ((memoryMB / 1024) * 0.0000166667 * 100 * 1000000 / 1000,
   "Lambda " ++ fmtDotZero memoryMB ++ "MB (estimated)", true)

/-- estimateS3Bucket: constant minimal estimate. -/
def estimateS3Bucket (e : PricingData) (attrs : AttrMap) : ℚ × String × Bool :=
  (0.023, "S3 Bucket (minimal estimate)", true)

/-- estimateEKSCluster: flat control-plane hourly rate times 730. -/
def estimateEKSCluster (e : PricingData) (attrs : AttrMap) :
    ℚ × String × Bool :=
  (e.EKSCluster * 730, "EKS Cluster", true)

/-- estimateECSService: desired_count (default 1) times a fixed Fargate
task rate times 730. -/
def estimateECSService (e : PricingData) (attrs : AttrMap) :
    ℚ × String × Bool :=
  let desiredCount := getFloat64Attr attrs "desired_count" 1
  (desiredCount * (0.25 * 0.04048 + 0.5 * 0.004445) * 730,
   "ECS Service (" ++ fmtDotZero desiredCount ++ " tasks, Fargate estimate)",
   true)

/-- estimateGCPInstance: machine_type attribute (default e2-micro),
hourly rate times 730. -/
def estimateGCPInstance (e : PricingData) (attrs : AttrMap) :
    ℚ × String × Bool :=
  let machineType := getStringAttr attrs "machine_type" "e2-micro"
  (gcpRate e machineType * 730, "GCP " ++ machineType, true)

/-- The size class an Azure VM estimate resolves to: the size attribute
(default Standard_B1s), falling through to vm_size only when size reads
as the empty string (body of estimateAzureVM). -/
def azureSize (attrs : AttrMap) : String :=
  let size := getStringAttr attrs "size" "Standard_B1s"
  if size = "" then getStringAttr attrs "vm_size" "Standard_B1s" else size

/-- estimateAzureVM: resolved size class hourly rate times 730. -/
def estimateAzureVM (e : PricingData) (attrs : AttrMap) : ℚ × String × Bool :=
  let size := azureSize attrs
  (azureRate e size * 730, "Azure " ++ size, true)

/-- ResourceChange.Change: the action list and the before / after
attribute maps of one planned resource change. -/
structure Change where
  actions : List String
  before : Option AttrMap
  after : Option AttrMap
deriving DecidableEq

/-- ResourceChange: one entry of the resource_changes list of a plan. -/
structure ResourceChange where
  address : String
  type : String
  change : Change
deriving DecidableEq

/-- CostEstimate: the per-resource output record. -/
structure CostEstimate where
  ResourceAddress : String
  ResourceType : String
  Action : String
  MonthlyCost : ℚ
  Details : String
deriving DecidableEq

/-- EstimationResult: the aggregate output of Estimate. -/
structure EstimationResult where
  Estimates : List CostEstimate
  TotalMonthlyCost : ℚ
  TotalMonthlyChange : ℚ
  CreatedResources : Nat
  DestroyedResources : Nat
  UpdatedResources : Nat
  UnsupportedTypes : List String
deriving DecidableEq

/-- Go strings.Join with a separator. -/
def goJoin (sep : String) : List String → String
  | [] => ""
  | [s] => s
  | s :: rest => s ++ sep ++ goJoin sep rest

/-- containsAction: membership test on the action list. -/
def containsAction (actions : List String) (target : String) : Bool :=
  actions.contains target

/-- estimateResourceCost: type dispatch to the per-family cost functions;
nil attribute maps and unrecognized types yield a zero cost with
supported = false. -/
def estimateResourceCost (e : PricingData) (resourceType : String)
    (attrs : Option AttrMap) : ℚ × String × Bool :=
  match attrs with
  | none => (0, "no attributes", false)
  | some a =>
    if resourceType = "aws_instance" then estimateEC2Instance e a
    else if resourceType = "aws_db_instance" then estimateRDSInstance e a
    else if resourceType = "aws_ebs_volume" then estimateEBSVolume e a
    else if resourceType = "aws_lb" ∨ resourceType = "aws_alb" then
      estimateALB e a
    else if resourceType = "aws_elb" then estimateELB e a
    else if resourceType = "aws_nat_gateway" then estimateNATGateway e a
    else if resourceType = "aws_elasticache_cluster" then
      estimateElasticache e a
    else if resourceType = "aws_lambda_function" then estimateLambda e a
    else if resourceType = "aws_s3_bucket" then estimateS3Bucket e a
    else if resourceType = "aws_eks_cluster" then estimateEKSCluster e a
    else if resourceType = "aws_ecs_service" then estimateECSService e a
    else if resourceType = "google_compute_instance" then
      estimateGCPInstance e a
    else if resourceType = "azurerm_virtual_machine" ∨
        resourceType = "azurerm_linux_virtual_machine" ∨
        resourceType = "azurerm_windows_virtual_machine" then
      estimateAzureVM e a
    else (0, "unsupported resource type", false)

/-- The unsupported-type bookkeeping of Estimate: when the estimate was
not supported and the type is not yet recorded, append it. -/
def addUnsupported (ts : List String) (t : String) (supported : Bool) :
    List String :=
  if !supported && !(ts.contains t) then ts ++ [t] else ts

/-- One loop iteration of Estimate over a resource change: skip no-op or
empty action labels, then branch on create-only, delete-only, replace,
update, appending the resulting CostEstimate and updating the totals. -/
def estimateStep (e : PricingData) (r : EstimationResult)
    (rc : ResourceChange) : EstimationResult :=
  let action := goJoin "+" rc.change.actions
  if action = "no-op" ∨ action = "" then r
  else
    let hasCreate := containsAction rc.change.actions "create"
    let hasDelete := containsAction rc.change.actions "delete"
    let hasUpdate := containsAction rc.change.actions "update"
    if hasCreate && !hasDelete then
      let c := estimateResourceCost e rc.type rc.change.after
      { r with
        UnsupportedTypes := addUnsupported r.UnsupportedTypes rc.type c.2.2,
        Estimates := r.Estimates ++
          [⟨rc.address, rc.type, action, c.1, c.2.1⟩],
        TotalMonthlyChange := r.TotalMonthlyChange + c.1,
        CreatedResources := r.CreatedResources + 1 }
    else if hasDelete && !hasCreate then
      let c := estimateResourceCost e rc.type rc.change.before
      { r with
        UnsupportedTypes := addUnsupported r.UnsupportedTypes rc.type c.2.2,
        Estimates := r.Estimates ++
          [⟨rc.address, rc.type, action, -c.1, c.2.1 ++ " (removed)"⟩],
        TotalMonthlyChange := r.TotalMonthlyChange - c.1,
        DestroyedResources := r.DestroyedResources + 1 }
    else if hasCreate && hasDelete then
      let oldC := estimateResourceCost e rc.type rc.change.before
      let newC := estimateResourceCost e rc.type rc.change.after
      { r with
        UnsupportedTypes :=
          addUnsupported r.UnsupportedTypes rc.type newC.2.2,
        Estimates := r.Estimates ++
          [⟨rc.address, rc.type, action, newC.1 - oldC.1,
            newC.2.1 ++ " (replaced)"⟩],
        TotalMonthlyChange := r.TotalMonthlyChange + (newC.1 - oldC.1),
        UpdatedResources := r.UpdatedResources + 1 }
    else if hasUpdate then
      let oldC := estimateResourceCost e rc.type rc.change.before
      let newC := estimateResourceCost e rc.type rc.change.after
      { r with
        UnsupportedTypes :=
          addUnsupported r.UnsupportedTypes rc.type newC.2.2,
        Estimates := r.Estimates ++
          [⟨rc.address, rc.type, action, newC.1 - oldC.1,
            newC.2.1 ++ " (updated)"⟩],
        TotalMonthlyChange := r.TotalMonthlyChange + (newC.1 - oldC.1),
        UpdatedResources := r.UpdatedResources + 1 }
    else
      { r with Estimates := r.Estimates ++
          [⟨rc.address, rc.type, action, 0, ""⟩] }

/-- The zero-initialized result record Estimate starts from. -/
def emptyResult : EstimationResult := ⟨[], 0, 0, 0, 0, 0, []⟩

/-- The result value of Estimate: fold the per-change step over the
resource changes, then set TotalMonthlyCost to TotalMonthlyChange. -/
def estimateResult (e : PricingData) (changes : List ResourceChange) :
    EstimationResult :=
  let r := changes.foldl (estimateStep e) emptyResult
  { r with TotalMonthlyCost := r.TotalMonthlyChange }

/-- Estimate with the Go signature: the result plus the error value,
which the source returns as nil on its only return path. -/
def Estimate (e : PricingData) (changes : List ResourceChange) :
    Except String EstimationResult :=
  let r := changes.foldl (estimateStep e) emptyResult
  Except.ok { r with TotalMonthlyCost := r.TotalMonthlyChange }

/-- The resource type strings having a pricing rule (the cases of the
type dispatch in estimateResourceCost). -/
def supportedTypes : List String :=
  ["aws_instance", "aws_db_instance", "aws_ebs_volume", "aws_lb",
   "aws_alb", "aws_elb", "aws_nat_gateway", "aws_elasticache_cluster",
   "aws_lambda_function", "aws_s3_bucket", "aws_eks_cluster",
   "aws_ecs_service", "google_compute_instance",
   "azurerm_virtual_machine", "azurerm_linux_virtual_machine",
   "azurerm_windows_virtual_machine"]

/-- Whether a pricing rule exists for a resource type. -/
def hasPricingRule (t : String) : Bool := supportedTypes.contains t

/-- Whether processing a change flags its type unsupported: the change is
not skipped, matches a branch, and the estimate consulted by that branch
reports supported = false. -/
def changeFlags (e : PricingData) (rc : ResourceChange) : Bool :=
  let action := goJoin "+" rc.change.actions
  if action = "no-op" ∨ action = "" then false
  else
    let hasCreate := containsAction rc.change.actions "create"
    let hasDelete := containsAction rc.change.actions "delete"
    let hasUpdate := containsAction rc.change.actions "update"
    if hasCreate && !hasDelete then
      !(estimateResourceCost e rc.type rc.change.after).2.2
    else if hasDelete && !hasCreate then
      !(estimateResourceCost e rc.type rc.change.before).2.2
    else if hasCreate && hasDelete then
      !(estimateResourceCost e rc.type rc.change.after).2.2
    else if hasUpdate then
      !(estimateResourceCost e rc.type rc.change.after).2.2
    else false

/-- The sequence of resource types flagged unsupported while processing a
change list, in processing order, with repetitions. -/
def flaggedTypes (e : PricingData) (changes : List ResourceChange) :
    List String :=
  (changes.filter (fun rc => changeFlags e rc)).map (fun rc => rc.type)

/-- Accumulate a sequence of flagged types into a first-occurrence list. -/
def addAll (ts : List String) (l : List String) : List String :=
  l.foldl (fun acc t => addUnsupported acc t false) ts

/-- The subsequence of first occurrences of a list of strings: each
element kept at its first position, later repetitions dropped. -/
def dedupFirst : List String → List String
  | [] => []
  | a :: t => a :: dedupFirst (t.filter (fun b => decide (b ≠ a)))
termination_by l => l.length
decreasing_by
  simp only [List.length_cons]
  exact Nat.lt_succ_of_le (List.length_filter_le _ _)

/-- The least rate appearing in a family price table (0 for an empty
table). -/
def minRate : List (String × ℚ) → ℚ
  | [] => 0
  | p :: t => (t.map (fun q => q.2)).foldl min p.2

/-- A numeric attribute value is non-negative; non-numeric values place
no constraint. -/
def nonnegAttrVal : AttrValue → Prop
  | .f64 x => 0 ≤ x
  | .int n => 0 ≤ n
  | .int64 n => 0 ≤ n
  | _ => True

/-- Every numeric value in the attribute map is non-negative. -/
def nonnegAttrs (a : AttrMap) : Prop := ∀ p ∈ a, nonnegAttrVal p.2

/-- nonnegAttrs lifted to a possibly nil attribute map. -/
def nonnegOptAttrs : Option AttrMap → Prop
  | none => True
  | some a => nonnegAttrs a

/-- A concrete replace change (create+delete) on a supported type, used
as a witness input. -/
def rcReplace : ResourceChange :=
  ⟨"aws_eks_cluster.main", "aws_eks_cluster",
   ⟨["create", "delete"], some [], some []⟩⟩

/-- A concrete change whose action list matches no branch. -/
def rcRead : ResourceChange :=
  ⟨"data.aws_ami.ubuntu", "aws_ami", ⟨["read"], none, none⟩⟩

/-- A concrete create-only change of a supported type with a nil after
attribute map. -/
def nilCreateChange : ResourceChange :=
  ⟨"aws_instance.web", "aws_instance", ⟨["create"], none, none⟩⟩

/-- A concrete create-only EBS volume change with a negative declared
size. -/
def rcNegVolume : ResourceChange :=
  ⟨"aws_ebs_volume.bad", "aws_ebs_volume",
   ⟨["create"], none, some [("size", AttrValue.f64 (-1))]⟩⟩

/-- Two concrete changes sharing an unpriced resource type. -/
def rcU1 : ResourceChange :=
  ⟨"null_resource.a", "null_resource", ⟨["create"], none, some []⟩⟩

/-- Second change of the same unpriced type, in a different branch. -/
def rcU2 : ResourceChange :=
  ⟨"null_resource.b", "null_resource", ⟨["delete"], some [], none⟩⟩

/-- A concrete create-only change with non-negative attributes. -/
def rcCreateInstance : ResourceChange :=
  ⟨"aws_instance.a", "aws_instance",
   ⟨["create"], none, some [("instance_type", AttrValue.str "m5.large")]⟩⟩

theorem length_le_goJoin (sep s : String) (l : List String) (h : s ∈ l) :
    s.length ≤ (goJoin sep l).length := by
  induction l with
  | nil => cases h
  | cons a t ih =>
    cases t with
    | nil =>
      have hs : s = a := by simpa using h
      subst hs
      simp [goJoin]
    | cons b t2 =>
      rcases List.mem_cons.mp h with rfl | hmem
      · simp [goJoin, String.length_append]
        omega
      · have hle := ih hmem
        simp only [goJoin, String.length_append] at hle ⊢
        omega

theorem not_skip_of_mem6 (l : List String) (s : String) (h : s ∈ l)
    (h6 : s.length = 6) :
    ¬(goJoin "+" l = "no-op" ∨ goJoin "+" l = "") := by
  intro hc
  have hle := length_le_goJoin "+" s l h
  have h5 : ("no-op" : String).length = 5 := rfl
  have h0 : ("" : String).length = 0 := rfl
  rcases hc with h1 | h1 <;> rw [h1] at hle <;> omega

theorem mem_of_containsAction {l : List String} {s : String}
    (h : containsAction l s = true) : s ∈ l := by
  simpa [containsAction] using h

theorem estimateStep_create_eq (e : PricingData) (r : EstimationResult)
    (rc : ResourceChange)
    (hc : containsAction rc.change.actions "create" = true)
    (hd : containsAction rc.change.actions "delete" = false) :
    estimateStep e r rc =
      { r with
        UnsupportedTypes := addUnsupported r.UnsupportedTypes rc.type
          (estimateResourceCost e rc.type rc.change.after).2.2,
        Estimates := r.Estimates ++
          [⟨rc.address, rc.type, goJoin "+" rc.change.actions,
            (estimateResourceCost e rc.type rc.change.after).1,
            (estimateResourceCost e rc.type rc.change.after).2.1⟩],
        TotalMonthlyChange := r.TotalMonthlyChange +
          (estimateResourceCost e rc.type rc.change.after).1,
        CreatedResources := r.CreatedResources + 1 } := by
  have hskip := not_skip_of_mem6 _ _ (mem_of_containsAction hc) rfl
  simp [estimateStep, hskip, hc, hd]

theorem estimateStep_delete_eq (e : PricingData) (r : EstimationResult)
    (rc : ResourceChange)
    (hd : containsAction rc.change.actions "delete" = true)
    (hc : containsAction rc.change.actions "create" = false) :
    estimateStep e r rc =
      { r with
        UnsupportedTypes := addUnsupported r.UnsupportedTypes rc.type
          (estimateResourceCost e rc.type rc.change.before).2.2,
        Estimates := r.Estimates ++
          [⟨rc.address, rc.type, goJoin "+" rc.change.actions,
            -(estimateResourceCost e rc.type rc.change.before).1,
            (estimateResourceCost e rc.type rc.change.before).2.1 ++
              " (removed)"⟩],
        TotalMonthlyChange := r.TotalMonthlyChange -
          (estimateResourceCost e rc.type rc.change.before).1,
        DestroyedResources := r.DestroyedResources + 1 } := by
  have hskip := not_skip_of_mem6 _ _ (mem_of_containsAction hd) rfl
  simp [estimateStep, hskip, hc, hd]

theorem estimateStep_replace_eq (e : PricingData) (r : EstimationResult)
    (rc : ResourceChange)
    (hc : containsAction rc.change.actions "create" = true)
    (hd : containsAction rc.change.actions "delete" = true) :
    estimateStep e r rc =
      { r with
        UnsupportedTypes := addUnsupported r.UnsupportedTypes rc.type
          (estimateResourceCost e rc.type rc.change.after).2.2,
        Estimates := r.Estimates ++
          [⟨rc.address, rc.type, goJoin "+" rc.change.actions,
            (estimateResourceCost e rc.type rc.change.after).1 -
              (estimateResourceCost e rc.type rc.change.before).1,
            (estimateResourceCost e rc.type rc.change.after).2.1 ++
              " (replaced)"⟩],
        TotalMonthlyChange := r.TotalMonthlyChange +
          ((estimateResourceCost e rc.type rc.change.after).1 -
            (estimateResourceCost e rc.type rc.change.before).1),
        UpdatedResources := r.UpdatedResources + 1 } := by
  have hskip := not_skip_of_mem6 _ _ (mem_of_containsAction hc) rfl
  simp [estimateStep, hskip, hc, hd]

theorem estimateStep_update_eq (e : PricingData) (r : EstimationResult)
    (rc : ResourceChange)
    (hc : containsAction rc.change.actions "create" = false)
    (hd : containsAction rc.change.actions "delete" = false)
    (hu : containsAction rc.change.actions "update" = true) :
    estimateStep e r rc =
      { r with
        UnsupportedTypes := addUnsupported r.UnsupportedTypes rc.type
          (estimateResourceCost e rc.type rc.change.after).2.2,
        Estimates := r.Estimates ++
          [⟨rc.address, rc.type, goJoin "+" rc.change.actions,
            (estimateResourceCost e rc.type rc.change.after).1 -
              (estimateResourceCost e rc.type rc.change.before).1,
            (estimateResourceCost e rc.type rc.change.after).2.1 ++
              " (updated)"⟩],
        TotalMonthlyChange := r.TotalMonthlyChange +
          ((estimateResourceCost e rc.type rc.change.after).1 -
            (estimateResourceCost e rc.type rc.change.before).1),
        UpdatedResources := r.UpdatedResources + 1 } := by
  have hskip := not_skip_of_mem6 _ _ (mem_of_containsAction hu) rfl
  simp [estimateStep, hskip, hc, hd, hu]

theorem estimateStep_other_eq (e : PricingData) (r : EstimationResult)
    (rc : ResourceChange)
    (hskip : ¬(goJoin "+" rc.change.actions = "no-op" ∨
      goJoin "+" rc.change.actions = ""))
    (hc : containsAction rc.change.actions "create" = false)
    (hd : containsAction rc.change.actions "delete" = false)
    (hu : containsAction rc.change.actions "update" = false) :
    estimateStep e r rc =
      { r with Estimates := r.Estimates ++
          [⟨rc.address, rc.type, goJoin "+" rc.change.actions, 0, ""⟩] } := by
  simp [estimateStep, hskip, hc, hd, hu]

theorem estimateStep_skip_eq (e : PricingData) (r : EstimationResult)
    (rc : ResourceChange)
    (hskip : goJoin "+" rc.change.actions = "no-op" ∨
      goJoin "+" rc.change.actions = "") :
    estimateStep e r rc = r := by
  simp [estimateStep, hskip]

theorem estimateStep_unsupportedTypes (e : PricingData)
    (r : EstimationResult) (rc : ResourceChange) :
    (estimateStep e r rc).UnsupportedTypes =
      addUnsupported r.UnsupportedTypes rc.type (!changeFlags e rc) := by
  by_cases hskip : (goJoin "+" rc.change.actions = "no-op" ∨
      goJoin "+" rc.change.actions = "")
  · rw [estimateStep_skip_eq e r rc hskip]
    simp [changeFlags, hskip, addUnsupported]
  · cases hc : containsAction rc.change.actions "create" <;>
      cases hd : containsAction rc.change.actions "delete" <;>
      cases hu : containsAction rc.change.actions "update"
    · rw [estimateStep_other_eq e r rc hskip hc hd hu]
      simp [changeFlags, hskip, hc, hd, hu, addUnsupported]
    · rw [estimateStep_update_eq e r rc hc hd hu]
      simp [changeFlags, hskip, hc, hd, hu, Bool.not_not]
    · rw [estimateStep_delete_eq e r rc hd hc]
      simp [changeFlags, hskip, hc, hd, Bool.not_not]
    · rw [estimateStep_delete_eq e r rc hd hc]
      simp [changeFlags, hskip, hc, hd, Bool.not_not]
    · rw [estimateStep_create_eq e r rc hc hd]
      simp [changeFlags, hskip, hc, hd, Bool.not_not]
    · rw [estimateStep_create_eq e r rc hc hd]
      simp [changeFlags, hskip, hc, hd, Bool.not_not]
    · rw [estimateStep_replace_eq e r rc hc hd]
      simp [changeFlags, hskip, hc, hd, Bool.not_not]
    · rw [estimateStep_replace_eq e r rc hc hd]
      simp [changeFlags, hskip, hc, hd, Bool.not_not]

theorem foldl_unsupportedTypes (e : PricingData)
    (l : List ResourceChange) :
    ∀ r : EstimationResult,
      (l.foldl (estimateStep e) r).UnsupportedTypes =
        addAll r.UnsupportedTypes (flaggedTypes e l) := by
  induction l with
  | nil => intro r; simp [addAll, flaggedTypes]
  | cons rc l ih =>
    intro r
    rw [List.foldl_cons, ih]
    have hstep := estimateStep_unsupportedTypes e r rc
    cases hf : changeFlags e rc
    · rw [hf] at hstep
      simp [addUnsupported] at hstep
      rw [hstep]
      simp [flaggedTypes, List.filter_cons, hf]
    · rw [hf] at hstep
      simp only [Bool.not_true] at hstep
      rw [hstep]
      simp [flaggedTypes, List.filter_cons, hf, addAll]

theorem addAll_eq_dedupFirst (l : List String) :
    ∀ acc : List String,
      addAll acc l = acc ++ dedupFirst (l.filter (fun x => !(acc.contains x))) := by
  induction l with
  | nil => intro acc; simp [addAll, dedupFirst]
  | cons a t ih =>
    intro acc
    by_cases hmem : a ∈ acc
    · have h1 : addAll acc (a :: t) = addAll acc t := by
        simp [addAll, addUnsupported, hmem]
      rw [h1, ih]
      have h2 : (a :: t).filter (fun x => !(acc.contains x)) =
          t.filter (fun x => !(acc.contains x)) := by
        simp [List.filter_cons, hmem]
      rw [h2]
    · have h1 : addAll acc (a :: t) = addAll (acc ++ [a]) t := by
        simp [addAll, addUnsupported, hmem]
      rw [h1, ih]
      have h2 : (a :: t).filter (fun x => !(acc.contains x)) =
          a :: t.filter (fun x => !(acc.contains x)) := by
        simp [List.filter_cons, hmem]
      rw [h2]
      rw [dedupFirst]
      have h3 : t.filter (fun x => !((acc ++ [a]).contains x)) =
          (t.filter (fun x => !(acc.contains x))).filter
            (fun b => decide (b ≠ a)) := by
        rw [List.filter_filter]
        apply List.filter_congr
        intro x hx
        by_cases hxa : x = a <;> by_cases hxacc : x ∈ acc <;>
          simp [hxa, hxacc]
      rw [h3]
      simp

theorem mem_dedupFirst :
    ∀ (n : ℕ) (l : List String), l.length ≤ n →
      ∀ x, (x ∈ dedupFirst l ↔ x ∈ l) := by
  intro n
  induction n with
  | zero =>
    intro l hl x
    have : l = [] := List.length_eq_zero.mp (Nat.le_zero.mp hl)
    subst this
    simp [dedupFirst]
  | succ n ih =>
    intro l hl x
    cases l with
    | nil => simp [dedupFirst]
    | cons a t =>
      rw [dedupFirst]
      have hlen : (t.filter (fun b => decide (b ≠ a))).length ≤ n := by
        have := List.length_filter_le (fun b => decide (b ≠ a)) t
        simp only [List.length_cons] at hl
        omega
      have hmem := ih _ hlen x
      simp only [List.mem_cons, hmem, List.mem_filter, decide_eq_true_eq]
      by_cases hxa : x = a <;> simp [hxa]

theorem nodup_dedupFirst :
    ∀ (n : ℕ) (l : List String), l.length ≤ n → (dedupFirst l).Nodup := by
  intro n
  induction n with
  | zero =>
    intro l hl
    have : l = [] := List.length_eq_zero.mp (Nat.le_zero.mp hl)
    subst this
    simp [dedupFirst]
  | succ n ih =>
    intro l hl
    cases l with
    | nil => simp [dedupFirst]
    | cons a t =>
      rw [dedupFirst]
      have hlen : (t.filter (fun b => decide (b ≠ a))).length ≤ n := by
        have := List.length_filter_le (fun b => decide (b ≠ a)) t
        simp only [List.length_cons] at hl
        omega
      refine List.nodup_cons.mpr ⟨?_, ih _ hlen⟩
      intro hmem
      have := (mem_dedupFirst n _ hlen a).mp hmem
      simp at this

theorem unsupported_of_no_rule (e : PricingData) (t : String)
    (attrs : Option AttrMap) (h : hasPricingRule t = false) :
    (estimateResourceCost e t attrs).2.2 = false := by
  cases attrs with
  | none => rfl
  | some a =>
    simp only [hasPricingRule, supportedTypes] at h
    simp at h
    obtain ⟨h1, h2, h3, h4, h5, h6, h7, h8, h9, h10, h11, h12, h13, h14,
      h15, h16⟩ := h
    simp [estimateResourceCost, h1, h2, h3, h4, h5, h6, h7, h8, h9, h10,
      h11, h12, h13, h14, h15, h16]

theorem estimateStep_total_sum (e : PricingData) (r : EstimationResult)
    (rc : ResourceChange)
    (h : r.TotalMonthlyChange =
      (r.Estimates.map (fun c => c.MonthlyCost)).sum) :
    (estimateStep e r rc).TotalMonthlyChange =
      ((estimateStep e r rc).Estimates.map (fun c => c.MonthlyCost)).sum := by
  by_cases hskip : (goJoin "+" rc.change.actions = "no-op" ∨
      goJoin "+" rc.change.actions = "")
  · rw [estimateStep_skip_eq e r rc hskip]; exact h
  · cases hc : containsAction rc.change.actions "create" <;>
      cases hd : containsAction rc.change.actions "delete" <;>
      cases hu : containsAction rc.change.actions "update"
    · rw [estimateStep_other_eq e r rc hskip hc hd hu]
      simp [h]
    · rw [estimateStep_update_eq e r rc hc hd hu]
      simp [h]
    · rw [estimateStep_delete_eq e r rc hd hc]
      simp [h, sub_eq_add_neg]
    · rw [estimateStep_delete_eq e r rc hd hc]
      simp [h, sub_eq_add_neg]
    · rw [estimateStep_create_eq e r rc hc hd]
      simp [h]
    · rw [estimateStep_create_eq e r rc hc hd]
      simp [h]
    · rw [estimateStep_replace_eq e r rc hc hd]
      simp [h]
    · rw [estimateStep_replace_eq e r rc hc hd]
      simp [h]

theorem foldl_total_sum (e : PricingData) (l : List ResourceChange) :
    ∀ r : EstimationResult,
      r.TotalMonthlyChange =
        (r.Estimates.map (fun c => c.MonthlyCost)).sum →
      (l.foldl (estimateStep e) r).TotalMonthlyChange =
        (((l.foldl (estimateStep e) r)).Estimates.map
          (fun c => c.MonthlyCost)).sum := by
  induction l with
  | nil => intro r h; simpa using h
  | cons rc l ih =>
    intro r h
    rw [List.foldl_cons]
    exact ih _ (estimateStep_total_sum e r rc h)

theorem changeFlags_of_no_rule (e : PricingData) (rc : ResourceChange)
    (h : hasPricingRule rc.type = false)
    (hb : containsAction rc.change.actions "create" = true ∨
      containsAction rc.change.actions "delete" = true ∨
      containsAction rc.change.actions "update" = true) :
    changeFlags e rc = true := by
  have hskip : ¬(goJoin "+" rc.change.actions = "no-op" ∨
      goJoin "+" rc.change.actions = "") := by
    rcases hb with hx | hx | hx <;>
      exact not_skip_of_mem6 _ _ (mem_of_containsAction hx) rfl
  cases hc : containsAction rc.change.actions "create" <;>
    cases hd : containsAction rc.change.actions "delete" <;>
    cases hu : containsAction rc.change.actions "update" <;>
    simp [changeFlags, hskip, hc, hd, hu,
      unsupported_of_no_rule e rc.type _ h]
  rw [hc, hd, hu] at hb
  simp at hb


/-- Claim C1: for every resource change whose action list contains both
create and delete, the step adds price(after) minus price(before) to the
total monthly change, increments the updated counter by exactly 1,
leaves the created and destroyed counters unchanged, and the appended
estimate record carries that delta and a detail string suffixed with
" (replaced)". -/
theorem C1_replace_branch (e : PricingData) (r : EstimationResult)
    (rc : ResourceChange)
    (hc : containsAction rc.change.actions "create" = true)
    (hd : containsAction rc.change.actions "delete" = true) :
    (estimateStep e r rc).TotalMonthlyChange =
      r.TotalMonthlyChange +
        ((estimateResourceCost e rc.type rc.change.after).1 -
          (estimateResourceCost e rc.type rc.change.before).1) ∧
    (estimateStep e r rc).UpdatedResources = r.UpdatedResources + 1 ∧
    (estimateStep e r rc).CreatedResources = r.CreatedResources ∧
    (estimateStep e r rc).DestroyedResources = r.DestroyedResources ∧
    (estimateStep e r rc).Estimates = r.Estimates ++
      [⟨rc.address, rc.type, goJoin "+" rc.change.actions,
        (estimateResourceCost e rc.type rc.change.after).1 -
          (estimateResourceCost e rc.type rc.change.before).1,
        (estimateResourceCost e rc.type rc.change.after).2.1 ++
          " (replaced)"⟩] := by
  rw [estimateStep_replace_eq e r rc hc hd]
  exact ⟨rfl, rfl, rfl, rfl, rfl⟩

/-- Witness for C1 at a concrete replace change. -/
theorem C1_replace_branch_witness :
    (estimateStep NewDefaultPricing emptyResult rcReplace).UpdatedResources =
      emptyResult.UpdatedResources + 1 ∧
    (estimateStep NewDefaultPricing emptyResult rcReplace).CreatedResources =
      emptyResult.CreatedResources ∧
    (estimateStep NewDefaultPricing emptyResult rcReplace).TotalMonthlyChange =
      emptyResult.TotalMonthlyChange +
        ((estimateResourceCost NewDefaultPricing rcReplace.type
            rcReplace.change.after).1 -
          (estimateResourceCost NewDefaultPricing rcReplace.type
            rcReplace.change.before).1) := by
  have h := C1_replace_branch NewDefaultPricing emptyResult rcReplace
    (by decide) (by decide)
  exact ⟨h.2.1, h.2.2.1, h.1⟩

/-- Counterexample to claim C3: a change with action list ["read"]
matches no branch, yet Estimate does append a CostEstimate record for
it (the append sits outside the action switch), so the estimate list is
not empty. -/
theorem C3_counterexample :
    (estimateResult NewDefaultPricing [rcRead]).Estimates =
      [⟨"data.aws_ami.ubuntu", "aws_ami", "read", 0, ""⟩] ∧
    (estimateResult NewDefaultPricing [rcRead]).Estimates ≠ [] := by
  constructor
  · simp [estimateResult, estimateStep, emptyResult, rcRead, goJoin,
      containsAction]
  · simp [estimateResult, estimateStep, emptyResult, rcRead, goJoin,
      containsAction]

/-- Claim C3 (amended): a change whose joined action label is neither
empty nor no-op but whose action set matches no branch appends exactly
one zero-cost CostEstimate record with empty details, and leaves every
counter, the total, and the unsupported-type list unchanged. -/
theorem C3_no_branch (e : PricingData) (r : EstimationResult)
    (rc : ResourceChange)
    (hskip : ¬(goJoin "+" rc.change.actions = "no-op" ∨
      goJoin "+" rc.change.actions = ""))
    (hc : containsAction rc.change.actions "create" = false)
    (hd : containsAction rc.change.actions "delete" = false)
    (hu : containsAction rc.change.actions "update" = false) :
    (estimateStep e r rc).Estimates = r.Estimates ++
      [⟨rc.address, rc.type, goJoin "+" rc.change.actions, 0, ""⟩] ∧
    (estimateStep e r rc).TotalMonthlyChange = r.TotalMonthlyChange ∧
    (estimateStep e r rc).CreatedResources = r.CreatedResources ∧
    (estimateStep e r rc).DestroyedResources = r.DestroyedResources ∧
    (estimateStep e r rc).UpdatedResources = r.UpdatedResources ∧
    (estimateStep e r rc).UnsupportedTypes = r.UnsupportedTypes := by
  rw [estimateStep_other_eq e r rc hskip hc hd hu]
  exact ⟨rfl, rfl, rfl, rfl, rfl, rfl⟩

/-- Witness for the amended C3 at the concrete read-only change. -/
theorem C3_no_branch_witness :
    (estimateStep NewDefaultPricing emptyResult rcRead).Estimates =
      emptyResult.Estimates ++
        [⟨rcRead.address, rcRead.type, goJoin "+" rcRead.change.actions,
          0, ""⟩] ∧
    (estimateStep NewDefaultPricing emptyResult rcRead).CreatedResources =
      emptyResult.CreatedResources := by
  have h := C3_no_branch NewDefaultPricing emptyResult rcRead
    (by decide) (by decide) (by decide) (by decide)
  exact ⟨h.1, h.2.2.1⟩

/-- Claim C6: the UnsupportedTypes list of every estimation result is
exactly the first-occurrence deduplication of the sequence of flagged
types, hence has no duplicates, and every type without a pricing rule
occurring in some branch-matching change appears in it exactly once. -/
theorem C6_unsupported_dedup (e : PricingData) (l : List ResourceChange) :
    (estimateResult e l).UnsupportedTypes = dedupFirst (flaggedTypes e l) ∧
    (estimateResult e l).UnsupportedTypes.Nodup ∧
    ∀ t : String, hasPricingRule t = false →
      (∃ rc ∈ l, rc.type = t ∧
        (containsAction rc.change.actions "create" = true ∨
          containsAction rc.change.actions "delete" = true ∨
          containsAction rc.change.actions "update" = true)) →
      (estimateResult e l).UnsupportedTypes.count t = 1 := by
  have hU : (estimateResult e l).UnsupportedTypes =
      dedupFirst (flaggedTypes e l) := by
    simp only [estimateResult]
    rw [foldl_unsupportedTypes]
    rw [addAll_eq_dedupFirst]
    simp [emptyResult]
  refine ⟨hU, ?_, ?_⟩
  · rw [hU]
    exact nodup_dedupFirst (flaggedTypes e l).length _ le_rfl
  · intro t ht hex
    obtain ⟨rc, hmem, hty, hb⟩ := hex
    have hflag : changeFlags e rc = true := by
      apply changeFlags_of_no_rule e rc _ hb
      rw [hty]; exact ht
    have htmem : t ∈ flaggedTypes e l := by
      subst hty
      exact List.mem_map.mpr
        ⟨rc, List.mem_filter.mpr ⟨hmem, by simp [hflag]⟩, rfl⟩
    rw [hU]
    apply List.count_eq_one_of_mem
    · exact nodup_dedupFirst (flaggedTypes e l).length _ le_rfl
    · exact (mem_dedupFirst (flaggedTypes e l).length _ le_rfl t).mpr htmem

/-- Witness for C6: a plan with two changes of one unpriced type, in
different branches, records it exactly once. -/
theorem C6_unsupported_dedup_witness :
    (estimateResult NewDefaultPricing [rcU1, rcU2]).UnsupportedTypes.count
      "null_resource" = 1 := by
  apply (C6_unsupported_dedup NewDefaultPricing [rcU1, rcU2]).2.2
  · decide
  · exact ⟨rcU1, by simp, rfl, Or.inl (by decide)⟩

/-- Claim C7: for every change list, TotalMonthlyCost equals
TotalMonthlyChange, and both equal the sum of the MonthlyCost fields of
the produced estimates. -/
theorem C7_total_eq_sum (e : PricingData) (l : List ResourceChange) :
    (estimateResult e l).TotalMonthlyCost =
      (estimateResult e l).TotalMonthlyChange ∧
    (estimateResult e l).TotalMonthlyChange =
      ((estimateResult e l).Estimates.map (fun c => c.MonthlyCost)).sum := by
  constructor
  · rfl
  · simp only [estimateResult]
    exact foldl_total_sum e l emptyResult (by simp [emptyResult])

/-- Claim C8: Estimate always returns a nil error; its only return path
yields the result record together with a nil error value. -/
theorem C8_no_error (e : PricingData) (l : List ResourceChange) :
    Estimate e l = Except.ok (estimateResult e l) ∧
    (Estimate e l).isOk = true := by
  exact ⟨rfl, rfl⟩

/-- Claim C9: a nil applicable attribute map yields cost 0, detail
"no attributes" and supported = false for every resource type; hence a
create-only aws_instance change with a nil after map contributes 0 to
the total and records aws_instance, a supported type, in
UnsupportedTypes. -/
theorem C9_nil_attrs :
    (∀ (e : PricingData) (t : String),
      estimateResourceCost e t none = (0, "no attributes", false)) ∧
    (estimateResult NewDefaultPricing [nilCreateChange]).TotalMonthlyChange
      = 0 ∧
    (estimateResult NewDefaultPricing [nilCreateChange]).UnsupportedTypes
      = ["aws_instance"] ∧
    (estimateResult NewDefaultPricing [nilCreateChange]).CreatedResources
      = 1 ∧
    hasPricingRule "aws_instance" = true := by
  refine ⟨fun e t => rfl, ?_, ?_, ?_, by decide⟩ <;>
    simp [estimateResult, estimateStep, emptyResult, nilCreateChange,
      goJoin, containsAction, estimateResourceCost, addUnsupported]

/-- Claim C10: the Azure VM size resolution consults vm_size only when
the size attribute is present and reads as the empty string; when the
size key is absent the default Standard_B1s is used and any vm_size
value is ignored; a present non-empty size string is used as is. -/
theorem C10_azure_size (a : AttrMap) :
    (a.lookup "size" = none →
      azureSize a = "Standard_B1s" ∧
      estimateAzureVM NewDefaultPricing a =
        (azureRate NewDefaultPricing "Standard_B1s" * 730,
          "Azure Standard_B1s", true)) ∧
    (a.lookup "size" = some (AttrValue.str "") →
      azureSize a = getStringAttr a "vm_size" "Standard_B1s") ∧
    (∀ s : String, a.lookup "size" = some (AttrValue.str s) → s ≠ "" →
      azureSize a = s) := by
  refine ⟨?_, ?_, ?_⟩
  · intro h
    have hsz : azureSize a = "Standard_B1s" := by
      simp [azureSize, getStringAttr, h]
    exact ⟨hsz, by simp [estimateAzureVM, hsz]⟩
  · intro h
    simp [azureSize, getStringAttr, h]
  · intro s h hne
    simp [azureSize, getStringAttr, h, hne]

/-- Witness for C10: with no size key, a vm_size value is ignored; with
an empty size string, vm_size is consulted; a non-empty size wins. -/
theorem C10_azure_size_witness :
    azureSize [("vm_size", AttrValue.str "Standard_D8s_v3")] =
      "Standard_B1s" ∧
    azureSize [("size", AttrValue.str ""),
      ("vm_size", AttrValue.str "Standard_D8s_v3")] =
      getStringAttr [("size", AttrValue.str ""),
        ("vm_size", AttrValue.str "Standard_D8s_v3")] "vm_size"
        "Standard_B1s" ∧
    azureSize [("size", AttrValue.str "Standard_B2s")] = "Standard_B2s" := by
  refine ⟨?_, ?_, ?_⟩
  · exact ((C10_azure_size _).1 (by decide)).1
  · exact (C10_azure_size _).2.1 (by decide)
  · exact (C10_azure_size _).2.2 "Standard_B2s" (by decide) (by decide)

theorem mapGet_nonneg (m : List (String × ℚ)) (k : String)
    (h : ∀ p ∈ m, 0 ≤ p.2) : 0 ≤ mapGet m k := by
  induction m with
  | nil => simp [mapGet, List.lookup]
  | cons p m ih =>
    obtain ⟨a, b⟩ := p
    simp only [mapGet, List.lookup]
    cases hk : k == a
    · simpa [mapGet] using ih (fun q hq => h q (List.mem_cons_of_mem _ hq))
    · simpa using h (a, b) (List.mem_cons_self _ _)

theorem ec2Instances_nonneg : ∀ p ∈ NewDefaultPricing.EC2Instances, 0 ≤ p.2 := by
  norm_num [NewDefaultPricing, List.forall_mem_cons]

theorem rdsInstances_nonneg : ∀ p ∈ NewDefaultPricing.RDSInstances, 0 ≤ p.2 := by
  norm_num [NewDefaultPricing, List.forall_mem_cons]

theorem ebsStorage_nonneg : ∀ p ∈ NewDefaultPricing.EBSStorage, 0 ≤ p.2 := by
  norm_num [NewDefaultPricing, List.forall_mem_cons]

theorem loadBalancers_nonneg :
    ∀ p ∈ NewDefaultPricing.LoadBalancers, 0 ≤ p.2 := by
  norm_num [NewDefaultPricing, List.forall_mem_cons]

theorem elasticache_nonneg : ∀ p ∈ NewDefaultPricing.Elasticache, 0 ≤ p.2 := by
  norm_num [NewDefaultPricing, List.forall_mem_cons]

theorem gcpInstances_nonneg : ∀ p ∈ NewDefaultPricing.GCPInstances, 0 ≤ p.2 := by
  norm_num [NewDefaultPricing, List.forall_mem_cons]

theorem azureVMs_nonneg : ∀ p ∈ NewDefaultPricing.AzureVMs, 0 ≤ p.2 := by
  norm_num [NewDefaultPricing, List.forall_mem_cons]

theorem ec2Rate_nonneg (t : String) : 0 ≤ ec2Rate NewDefaultPricing t := by
  simp only [ec2Rate]
  split <;> exact mapGet_nonneg _ _ ec2Instances_nonneg

theorem rdsRate_nonneg (t : String) : 0 ≤ rdsRate NewDefaultPricing t := by
  simp only [rdsRate]
  split <;> exact mapGet_nonneg _ _ rdsInstances_nonneg

theorem ebsRate_nonneg (t : String) : 0 ≤ ebsRate NewDefaultPricing t := by
  simp only [ebsRate]
  split <;> exact mapGet_nonneg _ _ ebsStorage_nonneg

theorem cacheRate_nonneg (t : String) : 0 ≤ cacheRate NewDefaultPricing t := by
  simp only [cacheRate]
  split <;> exact mapGet_nonneg _ _ elasticache_nonneg

theorem gcpRate_nonneg (t : String) : 0 ≤ gcpRate NewDefaultPricing t := by
  simp only [gcpRate]
  split <;> exact mapGet_nonneg _ _ gcpInstances_nonneg

theorem azureRate_nonneg (t : String) : 0 ≤ azureRate NewDefaultPricing t := by
  simp only [azureRate]
  split <;> exact mapGet_nonneg _ _ azureVMs_nonneg

theorem getFloat64Attr_nonneg (a : AttrMap) (hn : nonnegAttrs a)
    (k : String) (d : ℚ) (hd : 0 ≤ d) : 0 ≤ getFloat64Attr a k d := by
  induction a with
  | nil => simpa [getFloat64Attr, List.lookup] using hd
  | cons p t ih =>
    obtain ⟨kk, v⟩ := p
    simp only [getFloat64Attr, List.lookup]
    cases hk : k == kk
    · have hrec := ih (fun q hq => hn q (List.mem_cons_of_mem _ hq))
      simpa [getFloat64Attr] using hrec
    · have hv := hn (kk, v) (List.mem_cons_self _ _)
      cases v with
      | str s => simpa using hd
      | f64 x => simpa [nonnegAttrVal] using hv
      | int n =>
        simp only [nonnegAttrVal] at hv
        simpa using hv
      | int64 n =>
        simp only [nonnegAttrVal] at hv
        simpa using hv
      | other => simpa using hd

theorem estimateResourceCost_nonneg (t : String) (attrs : Option AttrMap)
    (hn : nonnegOptAttrs attrs) :
    0 ≤ (estimateResourceCost NewDefaultPricing t attrs).1 := by
  cases attrs with
  | none => exact le_rfl
  | some a =>
    have hna : nonnegAttrs a := hn
    simp only [estimateResourceCost]
    by_cases h1 : t = "aws_instance"
    · simp only [if_pos h1, estimateEC2Instance]
      exact mul_nonneg (ec2Rate_nonneg _) (by norm_num)
    rw [if_neg h1]
    by_cases h2 : t = "aws_db_instance"
    · simp only [if_pos h2, estimateRDSInstance]
      refine add_nonneg (mul_nonneg (rdsRate_nonneg _) (by norm_num)) ?_
      exact mul_nonneg (getFloat64Attr_nonneg a hna _ _ (by norm_num))
        (mapGet_nonneg _ _ ebsStorage_nonneg)
    rw [if_neg h2]
    by_cases h3 : t = "aws_ebs_volume"
    · simp only [if_pos h3, estimateEBSVolume]
      exact mul_nonneg (getFloat64Attr_nonneg a hna _ _ (by norm_num))
        (ebsRate_nonneg _)
    rw [if_neg h3]
    by_cases h4 : (t = "aws_lb" ∨ t = "aws_alb")
    · simp only [if_pos h4, estimateALB]
      exact mul_nonneg (mapGet_nonneg _ _ loadBalancers_nonneg) (by norm_num)
    rw [if_neg h4]
    by_cases h5 : t = "aws_elb"
    · simp only [if_pos h5, estimateELB]
      exact mul_nonneg (mapGet_nonneg _ _ loadBalancers_nonneg) (by norm_num)
    rw [if_neg h5]
    by_cases h6 : t = "aws_nat_gateway"
    · simp only [if_pos h6, estimateNATGateway]
      norm_num [NewDefaultPricing]
    rw [if_neg h6]
    by_cases h7 : t = "aws_elasticache_cluster"
    · simp only [if_pos h7, estimateElasticache]
      exact mul_nonneg (mul_nonneg (cacheRate_nonneg _) (by norm_num))
        (getFloat64Attr_nonneg a hna _ _ (by norm_num))
    rw [if_neg h7]
    by_cases h8 : t = "aws_lambda_function"
    · simp only [if_pos h8, estimateLambda]
      refine div_nonneg ?_ (by norm_num)
      refine mul_nonneg (mul_nonneg (mul_nonneg ?_ (by norm_num))
        (by norm_num)) (by norm_num)
      exact div_nonneg (getFloat64Attr_nonneg a hna _ _ (by norm_num))
        (by norm_num)
    rw [if_neg h8]
    by_cases h9 : t = "aws_s3_bucket"
    · simp only [if_pos h9, estimateS3Bucket]
      norm_num
    rw [if_neg h9]
    by_cases h10 : t = "aws_eks_cluster"
    · simp only [if_pos h10, estimateEKSCluster]
      norm_num [NewDefaultPricing]
    rw [if_neg h10]
    by_cases h11 : t = "aws_ecs_service"
    · simp only [if_pos h11, estimateECSService]
      exact mul_nonneg (mul_nonneg
        (getFloat64Attr_nonneg a hna _ _ (by norm_num)) (by norm_num))
        (by norm_num)
    rw [if_neg h11]
    by_cases h12 : t = "google_compute_instance"
    · simp only [if_pos h12, estimateGCPInstance]
      exact mul_nonneg (gcpRate_nonneg _) (by norm_num)
    rw [if_neg h12]
    by_cases h13 : (t = "azurerm_virtual_machine" ∨
      t = "azurerm_linux_virtual_machine" ∨
      t = "azurerm_windows_virtual_machine")
    · simp only [if_pos h13, estimateAzureVM]
      exact mul_nonneg (azureRate_nonneg _) (by norm_num)
    rw [if_neg h13]

/-- Counterexample to C4: a create-only EBS volume whose declared size is
the negative number -1 contributes a strictly negative amount to the
total, so the create-only contribution is not non-negative for every
attribute map. -/
theorem C4_counterexample :
    (estimateResult NewDefaultPricing [rcNegVolume]).CreatedResources = 1 ∧
    (estimateResult NewDefaultPricing [rcNegVolume]).TotalMonthlyChange
      < 0 := by
  constructor
  · simp [estimateResult, estimateStep, emptyResult, rcNegVolume, goJoin,
      containsAction]
  · simp [estimateResult, estimateStep, emptyResult, rcNegVolume, goJoin,
      containsAction, estimateResourceCost, estimateEBSVolume,
      getStringAttr, getFloat64Attr, ebsRate, mapGet, List.lookup,
      NewDefaultPricing]
    norm_num

/-- Claim C4 (amended): for every create-only change, unconditionally,
the delta contribution equals price(after) and the created counter
increases by exactly 1; the contribution is moreover non-negative
whenever the numeric attribute values in the after map are non-negative
(a negative declared size or count can make it negative). -/
theorem C4_create_branch (r : EstimationResult) (rc : ResourceChange)
    (hc : containsAction rc.change.actions "create" = true)
    (hd : containsAction rc.change.actions "delete" = false) :
    (estimateStep NewDefaultPricing r rc).TotalMonthlyChange =
      r.TotalMonthlyChange +
        (estimateResourceCost NewDefaultPricing rc.type rc.change.after).1 ∧
    (estimateStep NewDefaultPricing r rc).CreatedResources =
      r.CreatedResources + 1 ∧
    (nonnegOptAttrs rc.change.after →
      0 ≤ (estimateResourceCost NewDefaultPricing rc.type
        rc.change.after).1) := by
  rw [estimateStep_create_eq NewDefaultPricing r rc hc hd]
  exact ⟨rfl, rfl, fun hn => estimateResourceCost_nonneg _ _ hn⟩


/-- Witness for the amended C4 at a concrete create-only change. -/
theorem C4_create_branch_witness :
    (estimateStep NewDefaultPricing emptyResult
      rcCreateInstance).CreatedResources =
        emptyResult.CreatedResources + 1 ∧
    0 ≤ (estimateResourceCost NewDefaultPricing rcCreateInstance.type
      rcCreateInstance.change.after).1 := by
  have h := C4_create_branch emptyResult rcCreateInstance (by decide)
    (by decide)
  exact ⟨h.2.1, h.2.2 (by simp [rcCreateInstance, nonnegOptAttrs,
    nonnegAttrs, nonnegAttrVal])⟩

/-- Counterexample to C5: with the instance_type key absent, the EC2
estimate uses t3.micro at 0.0104 per hour, while the smallest rate in
the EC2 table is 0.0047 (t3a.nano); the monthly cost is not the smallest
rate times 730. -/
theorem C5_counterexample :
    ([] : AttrMap).lookup "instance_type" = none ∧
    minRate NewDefaultPricing.EC2Instances = 0.0047 ∧
    (estimateEC2Instance NewDefaultPricing []).1 ≠
      minRate NewDefaultPricing.EC2Instances * 730 := by
  have h2 : minRate NewDefaultPricing.EC2Instances = 0.0047 := by
    norm_num [minRate, NewDefaultPricing, min_def, List.foldl_cons,
      List.foldl_nil, List.map_cons, List.map_nil]
  refine ⟨rfl, h2, ?_⟩
  have h1 : (estimateEC2Instance NewDefaultPricing []).1 = 0.0104 * 730 := by
    simp [estimateEC2Instance, ec2Rate, mapGet, getStringAttr,
      NewDefaultPricing, List.lookup]
  rw [h1, h2]
  norm_num

/-- Claim C5 (amended): a compute-instance change whose attribute map
lacks the size-class key is priced at the designated default class of
its family (t3.micro, e2-micro, Standard_B1s) times 730; this default is
the fallback class, not necessarily the cheapest table entry. -/
theorem C5_default_class (a : AttrMap) :
    (a.lookup "instance_type" = none →
      (estimateEC2Instance NewDefaultPricing a).1 =
        mapGet NewDefaultPricing.EC2Instances "t3.micro" * 730) ∧
    (a.lookup "machine_type" = none →
      (estimateGCPInstance NewDefaultPricing a).1 =
        mapGet NewDefaultPricing.GCPInstances "e2-micro" * 730) ∧
    (a.lookup "size" = none → a.lookup "vm_size" = none →
      (estimateAzureVM NewDefaultPricing a).1 =
        mapGet NewDefaultPricing.AzureVMs "Standard_B1s" * 730) := by
  have hec2 : ec2Rate NewDefaultPricing "t3.micro" =
      mapGet NewDefaultPricing.EC2Instances "t3.micro" := by
    simp only [ec2Rate]
    split <;> rfl
  have hgcp : gcpRate NewDefaultPricing "e2-micro" =
      mapGet NewDefaultPricing.GCPInstances "e2-micro" := by
    simp only [gcpRate]
    split <;> rfl
  have haz : azureRate NewDefaultPricing "Standard_B1s" =
      mapGet NewDefaultPricing.AzureVMs "Standard_B1s" := by
    simp only [azureRate]
    split <;> rfl
  refine ⟨?_, ?_, ?_⟩
  · intro h
    have hs : getStringAttr a "instance_type" "t3.micro" = "t3.micro" := by
      simp [getStringAttr, h]
    simp [estimateEC2Instance, hs, hec2]
  · intro h
    have hs : getStringAttr a "machine_type" "e2-micro" = "e2-micro" := by
      simp [getStringAttr, h]
    simp [estimateGCPInstance, hs, hgcp]
  · intro h h2
    have hs : azureSize a = "Standard_B1s" := by
      simp [azureSize, getStringAttr, h, h2]
    simp [estimateAzureVM, hs, haz]

/-- Witness for the amended C5 at the empty attribute map. -/
theorem C5_default_class_witness :
    (estimateEC2Instance NewDefaultPricing []).1 =
      mapGet NewDefaultPricing.EC2Instances "t3.micro" * 730 ∧
    (estimateGCPInstance NewDefaultPricing []).1 =
      mapGet NewDefaultPricing.GCPInstances "e2-micro" * 730 ∧
    (estimateAzureVM NewDefaultPricing []).1 =
      mapGet NewDefaultPricing.AzureVMs "Standard_B1s" * 730 := by
  have h := C5_default_class []
  exact ⟨h.1 rfl, h.2.1 rfl, h.2.2 rfl rfl⟩

/-- Claim C2: looking up a size or class absent from a known family
table resolves to the rate of the family's designated fallback
identifier, which is strictly positive; the missing key never yields a
zero rate. -/
theorem C2_fallback_rates (k : String) :
    (NewDefaultPricing.EC2Instances.lookup k = none →
      ec2Rate NewDefaultPricing k =
        mapGet NewDefaultPricing.EC2Instances "t3.micro" ∧
      0 < ec2Rate NewDefaultPricing k) ∧
    (NewDefaultPricing.RDSInstances.lookup k = none →
      rdsRate NewDefaultPricing k =
        mapGet NewDefaultPricing.RDSInstances "db.t3.micro" ∧
      0 < rdsRate NewDefaultPricing k) ∧
    (NewDefaultPricing.EBSStorage.lookup k = none →
      ebsRate NewDefaultPricing k =
        mapGet NewDefaultPricing.EBSStorage "gp2" ∧
      0 < ebsRate NewDefaultPricing k) ∧
    (NewDefaultPricing.Elasticache.lookup k = none →
      cacheRate NewDefaultPricing k =
        mapGet NewDefaultPricing.Elasticache "cache.t3.micro" ∧
      0 < cacheRate NewDefaultPricing k) ∧
    (NewDefaultPricing.GCPInstances.lookup k = none →
      gcpRate NewDefaultPricing k =
        mapGet NewDefaultPricing.GCPInstances "e2-micro" ∧
      0 < gcpRate NewDefaultPricing k) ∧
    (NewDefaultPricing.AzureVMs.lookup k = none →
      azureRate NewDefaultPricing k =
        mapGet NewDefaultPricing.AzureVMs "Standard_B1s" ∧
      0 < azureRate NewDefaultPricing k) := by
  refine ⟨?_, ?_, ?_, ?_, ?_, ?_⟩
  · intro h
    have h0 : mapGet NewDefaultPricing.EC2Instances k = 0 := by
      simp [mapGet, h]
    have he : ec2Rate NewDefaultPricing k =
        mapGet NewDefaultPricing.EC2Instances "t3.micro" := by
      simp [ec2Rate, h0]
    refine ⟨he, ?_⟩
    rw [he]
    simp [mapGet, NewDefaultPricing, List.lookup] <;> norm_num
  · intro h
    have h0 : mapGet NewDefaultPricing.RDSInstances k = 0 := by
      simp [mapGet, h]
    have he : rdsRate NewDefaultPricing k =
        mapGet NewDefaultPricing.RDSInstances "db.t3.micro" := by
      simp [rdsRate, h0]
    refine ⟨he, ?_⟩
    rw [he]
    simp [mapGet, NewDefaultPricing, List.lookup] <;> norm_num
  · intro h
    have h0 : mapGet NewDefaultPricing.EBSStorage k = 0 := by
      simp [mapGet, h]
    have he : ebsRate NewDefaultPricing k =
        mapGet NewDefaultPricing.EBSStorage "gp2" := by
      simp [ebsRate, h0]
    refine ⟨he, ?_⟩
    rw [he]
    simp [mapGet, NewDefaultPricing, List.lookup] <;> norm_num
  · intro h
    have h0 : mapGet NewDefaultPricing.Elasticache k = 0 := by
      simp [mapGet, h]
    have he : cacheRate NewDefaultPricing k =
        mapGet NewDefaultPricing.Elasticache "cache.t3.micro" := by
      simp [cacheRate, h0]
    refine ⟨he, ?_⟩
    rw [he]
    simp [mapGet, NewDefaultPricing, List.lookup] <;> norm_num
  · intro h
    have h0 : mapGet NewDefaultPricing.GCPInstances k = 0 := by
      simp [mapGet, h]
    have he : gcpRate NewDefaultPricing k =
        mapGet NewDefaultPricing.GCPInstances "e2-micro" := by
      simp [gcpRate, h0]
    refine ⟨he, ?_⟩
    rw [he]
    simp [mapGet, NewDefaultPricing, List.lookup] <;> norm_num
  · intro h
    have h0 : mapGet NewDefaultPricing.AzureVMs k = 0 := by
      simp [mapGet, h]
    have he : azureRate NewDefaultPricing k =
        mapGet NewDefaultPricing.AzureVMs "Standard_B1s" := by
      simp [azureRate, h0]
    refine ⟨he, ?_⟩
    rw [he]
    simp [mapGet, NewDefaultPricing, List.lookup] <;> norm_num

/-- Witness for C2 at a size string absent from all six family tables. -/
theorem C2_fallback_rates_witness :
    0 < ec2Rate NewDefaultPricing "m7g.medium" ∧
    0 < rdsRate NewDefaultPricing "m7g.medium" ∧
    0 < ebsRate NewDefaultPricing "m7g.medium" ∧
    0 < cacheRate NewDefaultPricing "m7g.medium" ∧
    0 < gcpRate NewDefaultPricing "m7g.medium" ∧
    0 < azureRate NewDefaultPricing "m7g.medium" := by
  have h := C2_fallback_rates "m7g.medium"
  exact ⟨(h.1 (by decide)).2, (h.2.1 (by decide)).2, (h.2.2.1 (by decide)).2,
    (h.2.2.2.1 (by decide)).2, (h.2.2.2.2.1 (by decide)).2,
    (h.2.2.2.2.2 (by decide)).2⟩
